import Mathlib

/-!
Verification of the music-player client core: a shallow embedding of the
session/search/library/playback state logic of the App component
(`src/unnamed/part_001`) and the persistence layer (`src/services/dbService.ts`),
with theorems settling the specification claims.

JavaScript strings are embedded as `String`, arrays as `List`, numbers used
for seek arithmetic as `ℚ`, nullable values as `Option`, and the truthiness
check on `email_confirmed_at` as a `Bool` field. Async remote calls are
passed in as explicit parameters (their resolved value, or a flag for a
rejected promise), so each handler becomes a pure state-transition function.
-/

/-- Track entity (`src/types.ts`, `Song`): identity is the `url` field.
The optional `cover` holds the provider thumbnail after mapping. -/
structure Song where
  url : String
  title : String
  artist : String
  cover : Option String
deriving DecidableEq, Repr

/-- Playlist as held in App state (`src/types.ts`, `Playlist`). -/
structure Playlist where
  id : Nat
  name : String
  image : String
  songs : List Song
deriving DecidableEq, Repr

/-- Profile row (`src/types.ts` and the shape built in `fetchData`). -/
structure Profile where
  id : String
  username : String
  full_name : String
  avatar_url : Option String
  phone : String
deriving DecidableEq, Repr

/-- The provider session user as read by the App: `user.id`,
`user.email`, truthiness of `user.email_confirmed_at`, and the
`user_metadata` fields consulted by `fetchData`. -/
structure AuthUser where
  id : String
  email : Option String
  emailConfirmed : Bool
  metaFullName : Option String
  metaAvatarUrl : Option String
deriving DecidableEq, Repr

/-! ## PlaybackEngine (`part_001` lines 27-35, 137-154) -/

/-- Player-relevant slice of App state: `playlistQueue`, `currentSong`,
`isPlaying`. Progress/time fields live in `SeekState` below; purely visual
fields are omitted. -/
structure PlayerState where
  playlistQueue : List Song
  currentSong : Option Song
  isPlaying : Bool
deriving DecidableEq, Repr

/-- Embedding of `handleEnded` (`part_001` lines 137-146): locate the
currently playing track in the queue by `url` (`findIndex`); if a successor
exists set it as the current song, otherwise set `isPlaying` to false.
The JS guard `currentIndex !== -1 && currentIndex < length - 1` becomes
the `findIdx?` match plus `i + 1 < length`. -/
def handleEnded (st : PlayerState) : PlayerState :=
  match st.currentSong with
  | none => st
  | some cur =>
    match st.playlistQueue.findIdx? (fun s => s.url == cur.url) with
    | some i =>
      if i + 1 < st.playlistQueue.length then
        { st with currentSong := st.playlistQueue[i+1]? }
      else
        { st with isPlaying := false }
    | none => { st with isPlaying := false }

/-- Seek-relevant slice of App state: the audio element position and the
`progress` slider value (0-100). -/
structure SeekState where
  currentTime : ℚ
  progress : ℚ
deriving DecidableEq, Repr

/-- Clamping performed by the range input element declared with
`min="0" max="100"` (`part_001` line 520): the value reported to the
`onChange` handler always lies in [0, 100]. -/
def rangeClamp (v : ℚ) : ℚ := max 0 (min 100 v)

/-- Embedding of a seek interaction: the slider clamps the raw value to
[0, 100], then `handleSeek` (`part_001` lines 148-154) sets
`currentTime := (val / 100) * duration` and `progress := val`. -/
def applySeek (_st : SeekState) (v d : ℚ) : SeekState :=
  { currentTime := (rangeClamp v) / 100 * d, progress := rangeClamp v }

/-- A predicate list has no hit iff `findIdx?` returns none. -/
theorem findIdx_eq_none_of_all_not {α : Type} (p : α → Bool) :
    ∀ l : List α, (∀ a ∈ l, p a = false) → l.findIdx? p = none := by
  intro l
  induction l with
  | nil => intro _; rfl
  | cons x xs ih =>
    intro h
    have hx : p x = false := h x (List.mem_cons_self x xs)
    simp [List.findIdx?_cons, hx]
    have := ih (fun a ha => h a (List.mem_cons_of_mem x ha))
    simpa [List.findIdx?_succ] using this

/-- C5: when the currently playing track sits (by url lookup, as the code
performs it) at index i of the queue, `handleEnded` advances the current
song to the element at i+1 when one exists, leaving the queue and the
playing flag untouched; when i is the last index it only clears the
playing flag, leaving the queue and current song untouched. -/
theorem handleEnded_advance (st : PlayerState) (cur : Song) (i : Nat)
    (hc : st.currentSong = some cur)
    (hi : st.playlistQueue.findIdx? (fun s => s.url == cur.url) = some i) :
    (i + 1 < st.playlistQueue.length →
      handleEnded st = { st with currentSong := st.playlistQueue[i+1]? }) ∧
    (i + 1 = st.playlistQueue.length →
      handleEnded st = { st with isPlaying := false }) := by
  constructor
  · intro hlt
    simp [handleEnded, hc, hi, hlt]
  · intro heq
    have : ¬ (i + 1 < st.playlistQueue.length) := by omega
    simp [handleEnded, hc, hi, this]

/-- Witness for C5 on a concrete two-track queue: playing the first track,
`handleEnded` advances to the second; playing the second, it stops. -/
theorem handleEnded_advance_witness :
    (let t1 : Song := ⟨"u1", "T1", "A1", none⟩
     let t2 : Song := ⟨"u2", "T2", "A2", none⟩
     let st : PlayerState := ⟨[t1, t2], some t1, true⟩
     (0 + 1 < st.playlistQueue.length →
       handleEnded st = { st with currentSong := st.playlistQueue[0+1]? }) ∧
     (0 + 1 = st.playlistQueue.length →
       handleEnded st = { st with isPlaying := false })) :=
  handleEnded_advance _ ⟨"u1", "T1", "A1", none⟩ 0 rfl (by decide)

/-- C10: if the current song's url occurs nowhere in the queue,
`handleEnded` only clears the playing flag; the queue and current song
are unchanged and no advancement occurs. -/
theorem handleEnded_urlMissing (st : PlayerState) (cur : Song)
    (hc : st.currentSong = some cur)
    (hm : ∀ s ∈ st.playlistQueue, s.url ≠ cur.url) :
    handleEnded st = { st with isPlaying := false } := by
  have hnone : st.playlistQueue.findIdx? (fun s => s.url == cur.url) = none := by
    apply findIdx_eq_none_of_all_not
    intro a ha
    simpa using hm a ha
  simp [handleEnded, hc, hnone]

/-- Witness for C10: a queue not containing the current track's url. -/
theorem handleEnded_urlMissing_witness :
    handleEnded ⟨[⟨"u2", "T2", "A2", none⟩], some ⟨"u1", "T1", "A1", none⟩, true⟩ =
      { playlistQueue := [⟨"u2", "T2", "A2", none⟩],
        currentSong := some ⟨"u1", "T1", "A1", none⟩,
        isPlaying := false } :=
  handleEnded_urlMissing _ ⟨"u1", "T1", "A1", none⟩ rfl (by decide)

/-- C6: the seek fraction (slider value / 100) is clamped to [0, 1] before
the position is set: seeking with fraction -1 equals seeking with 0,
fraction 2 equals fraction 1, seeking is idempotent for a fixed fraction
and duration, and the resulting position lies in [0, duration] whenever
the duration is nonnegative. The spec fraction f corresponds to slider
value 100 * f. -/
theorem seek_clamped (st : SeekState) (f d : ℚ) (hd : 0 ≤ d) :
    applySeek st (100 * (-1)) d = applySeek st (100 * 0) d ∧
    applySeek st (100 * 2) d = applySeek st (100 * 1) d ∧
    applySeek (applySeek st (100 * f) d) (100 * f) d = applySeek st (100 * f) d ∧
    0 ≤ (applySeek st (100 * f) d).currentTime ∧
    (applySeek st (100 * f) d).currentTime ≤ d := by
  have hclamp0 : (0 : ℚ) ≤ rangeClamp (100 * f) := le_max_left 0 _
  have hclamp100 : rangeClamp (100 * f) ≤ 100 :=
    max_le (by norm_num) (min_le_left _ _)
  refine ⟨?_, ?_, rfl, ?_, ?_⟩
  · have h1 : rangeClamp (100 * (-1)) = rangeClamp (100 * 0) := by
      norm_num [rangeClamp]
    unfold applySeek
    rw [h1]
  · have h2 : rangeClamp (100 * 2) = rangeClamp (100 * 1) := by
      norm_num [rangeClamp]
    unfold applySeek
    rw [h2]
  · exact mul_nonneg (div_nonneg hclamp0 (by norm_num)) hd
  · have hle1 : rangeClamp (100 * f) / 100 ≤ 1 := by
      rw [div_le_one (by norm_num : (0:ℚ) < 100)]
      exact hclamp100
    calc rangeClamp (100 * f) / 100 * d ≤ 1 * d :=
          mul_le_mul_of_nonneg_right hle1 hd
      _ = d := one_mul d

/-- Witness for C6 at fraction 1/2 and duration 0. -/
theorem seek_clamped_witness :
    applySeek ⟨0, 0⟩ (100 * (-1)) 0 = applySeek ⟨0, 0⟩ (100 * 0) 0 ∧
    applySeek ⟨0, 0⟩ (100 * 2) 0 = applySeek ⟨0, 0⟩ (100 * 1) 0 ∧
    applySeek (applySeek ⟨0, 0⟩ (100 * (1/2)) 0) (100 * (1/2)) 0 =
      applySeek ⟨0, 0⟩ (100 * (1/2)) 0 ∧
    0 ≤ (applySeek ⟨0, 0⟩ (100 * (1/2)) 0).currentTime ∧
    (applySeek ⟨0, 0⟩ (100 * (1/2)) 0).currentTime ≤ 0 :=
  seek_clamped ⟨0, 0⟩ (1/2) 0 (le_refl 0)

/-! ## SearchPipeline (`part_001` lines 22-25, 157-180, 344-353) -/

/-- Raw entry of the search endpoint response (`data.songs` items). -/
structure ApiSong where
  url : String
  title : String
  artist : String
  thumbnail : String
deriving DecidableEq, Repr

/-- Normalization performed in `performSearch` (`part_001` lines 165-170):
the provider `thumbnail` maps to the internal `cover` field. -/
def mapApiSong (s : ApiSong) : Song :=
  ⟨s.url, s.title, s.artist, some s.thumbnail⟩

/-- Search slice of App state: `searchQuery`, `searchResults`,
`isSearching`. -/
structure SearchState where
  searchQuery : String
  searchResults : List Song
  isSearching : Bool
deriving DecidableEq, Repr

/-- How an in-flight `performSearch` request completes: the fetch resolves
with a `songs` array, resolves without one, or the fetch/json promise
rejects. -/
inductive SearchCompletion
  | success (songs : List ApiSong)
  | noSongs
  | failed
deriving DecidableEq, Repr

/-- Observable scheduling events of the pipeline. Dispatch order is
recorded with a sequence number `seq` so that out-of-order arrival can be
stated; the code itself carries no such number. -/
inductive SearchEvent
  | dispatch (seq : Nat) (query : String)
  | response (seq : Nat) (outcome : SearchCompletion)
deriving DecidableEq, Repr

/-- Embedding of `performSearch` (`part_001` lines 157-180), split at its
await point. Dispatch runs `setIsSearching(true)`. A response runs the
continuation: on `data.songs` present, set results to the mapped list; on
`data.songs` absent, set results to []; on a rejected fetch, only log.
In every case the `finally` block runs `setIsSearching(false)`. No field
of the response other than its payload is consulted — in particular the
sequence number is ignored. -/
def applySearchEvent (st : SearchState) : SearchEvent → SearchState
  | .dispatch _ _ => { st with isSearching := true }
  | .response _ (.success songs) =>
      { st with searchResults := songs.map mapApiSong, isSearching := false }
  | .response _ .noSongs =>
      { st with searchResults := [], isSearching := false }
  | .response _ .failed => { st with isSearching := false }

/-- Folding a schedule of dispatches and responses over the search state. -/
def runSearch (st : SearchState) (evs : List SearchEvent) : SearchState :=
  evs.foldl applySearchEvent st

/-- Embedding of the search input `onChange` handler (`part_001` lines
344-353): always store the query text; if its length exceeds 2, invoke
`performSearch`, whose synchronous prefix sets `isSearching := true`. The
returned boolean records whether a remote request was dispatched. -/
def onSearchChange (st : SearchState) (v : String) : SearchState × Bool :=
  if v.length > 2 then
    ({ st with searchQuery := v, isSearching := true }, true)
  else
    ({ st with searchQuery := v }, false)

/-- C3 counterexample: dispatches tagged 1 ("a") and 2 ("ab"); the
response for 2 arrives first, then the response for 1. The code applies
every response on arrival, so the visible results end up being request
1's, not request 2's — the claim says the set would remain request 2's. -/
theorem staleResponse_applied_cex :
    runSearch ⟨"", [], false⟩
      [SearchEvent.dispatch 1 "a",
       SearchEvent.dispatch 2 "ab",
       SearchEvent.response 2 (SearchCompletion.success [⟨"u2", "T2", "A2", "th2"⟩]),
       SearchEvent.response 1 (SearchCompletion.success [⟨"u1", "T1", "A1", "th1"⟩])] =
      ⟨"", [⟨"u1", "T1", "A1", some "th1"⟩], false⟩ ∧
    ([⟨"u1", "T1", "A1", some "th1"⟩] : List Song) ≠
      [⟨"u2", "T2", "A2", some "th2"⟩] := by
  constructor
  · rfl
  · decide

/-- C3 amended: responses are applied strictly in arrival order with no
sequence check — whatever successful response arrives last determines the
visible result set, regardless of its dispatch sequence number. -/
theorem search_lastArrivalWins (st : SearchState) (evs : List SearchEvent)
    (s : Nat) (songs : List ApiSong) :
    (runSearch st (evs ++ [SearchEvent.response s (SearchCompletion.success songs)])).searchResults
      = songs.map mapApiSong := by
  simp [runSearch, List.foldl_append, applySearchEvent]

/-- C8 counterexample: with a non-empty visible result set, typing the
2-character query "ab" dispatches nothing (as claimed) but leaves the
result set intact rather than clearing it to empty. -/
theorem shortQuery_keepsResults_cex :
    onSearchChange ⟨"abc", [⟨"u1", "T1", "A1", some "th1"⟩], false⟩ "ab" =
      (⟨"ab", [⟨"u1", "T1", "A1", some "th1"⟩], false⟩, false) ∧
    ([⟨"u1", "T1", "A1", some "th1"⟩] : List Song) ≠ [] := by
  constructor
  · rfl
  · decide

/-- C8 amended: a raw query of length at most 2 dispatches no remote
request and changes nothing except the stored query text — the result set
and searching flag are left as they were, not cleared. -/
theorem shortQuery_noDispatch (st : SearchState) (v : String)
    (hv : v.length ≤ 2) :
    onSearchChange st v = ({ st with searchQuery := v }, false) := by
  have : ¬ v.length > 2 := by omega
  simp [onSearchChange, this]

/-- Witness for C8 on the one-character query "a". -/
theorem shortQuery_noDispatch_witness :
    onSearchChange ⟨"", [], false⟩ "a" =
      ({ searchQuery := "a", searchResults := [], isSearching := false }, false) :=
  shortQuery_noDispatch ⟨"", [], false⟩ "a" (by decide)

/-- C9 counterexample: a search whose fetch rejects settles (the searching
flag clears) but the previously visible non-empty result set survives —
the claim says the pipeline settles with an empty result set. -/
theorem failedFetch_keepsResults_cex :
    runSearch ⟨"q", [⟨"u1", "T1", "A1", some "th1"⟩], false⟩
      [SearchEvent.dispatch 1 "abc", SearchEvent.response 1 SearchCompletion.failed] =
      ⟨"q", [⟨"u1", "T1", "A1", some "th1"⟩], false⟩ ∧
    ([⟨"u1", "T1", "A1", some "th1"⟩] : List Song) ≠ [] := by
  constructor
  · rfl
  · decide

/-- C9 amended: a failed fetch settles — after any schedule followed by a
failed response the searching flag is false — while the result set (and
query) are exactly whatever the preceding schedule left; the failure is
only logged, with no distinct error phase. -/
theorem failedFetch_settles (st : SearchState) (evs : List SearchEvent) (s : Nat) :
    runSearch st (evs ++ [SearchEvent.response s SearchCompletion.failed]) =
      { runSearch st evs with isSearching := false } := by
  simp [runSearch, List.foldl_append, applySearchEvent]

/-! ## LibraryStore (`part_001` lines 12-20, 74-103, 187-224, 432-437;
`src/services/dbService.ts`) -/

/-- Row of the `liked_songs` table (`dbService.ts` lines 28-44): an id
assigned by persistence, the owning user, and the serialized Track. -/
structure LikedRow where
  id : Nat
  user_id : String
  song_data : Song
deriving DecidableEq, Repr

/-- Row of the `user_playlists` table (`dbService.ts` lines 65-78). -/
structure PlaylistRow where
  id : Nat
  user_id : String
  name : String
  image : String
deriving DecidableEq, Repr

/-- Row of the `playlist_songs` table (`dbService.ts` lines 80-85). -/
structure PlaylistSongRow where
  id : Nat
  playlist_id : Nat
  song_data : Song
deriving DecidableEq, Repr

/-- Library-relevant slice of App state: the session user, `profile`,
`likedSongs` and `playlists` (`part_001` lines 12-19). -/
structure AppState where
  user : Option AuthUser
  profile : Option Profile
  likedSongs : List Song
  playlists : List Playlist
deriving DecidableEq, Repr

/-- Rows of `liked_songs` selected by the membership query in
`dbService.toggleLikedSong`: filtered by `user_id` and by the `url` key
inside `song_data`. -/
def matchingRows (uid url : String) (table : List LikedRow) : List LikedRow :=
  table.filter (fun r => r.user_id == uid && r.song_data.url == url)

/-- Fresh persistence-assigned id for an insert into `liked_songs`. -/
def nextId (table : List LikedRow) : Nat :=
  (table.map LikedRow.id).foldr max 0 + 1

/-- Embedding of `dbService.toggleLikedSong` (`dbService.ts` lines 28-44):
the `.single()` membership query succeeds only when exactly one row
matches (its error is discarded, leaving `existing` null otherwise), so
exactly one matching row leads to a delete returning false, and any other
row count leads to an insert returning true. -/
def toggleLikedSong (uid : String) (song : Song) (table : List LikedRow) :
    Bool × List LikedRow :=
  match matchingRows uid song.url table with
  | [row] => (false, table.filter (fun r => !(r.id == row.id)))
  | _ => (true, table ++ [⟨nextId table, uid, song⟩])

/-- Observable outcome of a `toggleLike` call (`part_001` lines 187-202):
the auth modal opens, the verification alert shows, the awaited remote
call rejects (the rejection propagates uncaught), or the toggle completes
with the remote-reported membership. -/
inductive ToggleOutcome
  | authPrompt
  | verifyAlert
  | thrown
  | toggled (isAdded : Bool)
deriving DecidableEq, Repr

/-- Embedding of `toggleLike` (`part_001` lines 187-202). The handler
checks the session, then awaits `dbService.toggleLikedSong` and only
afterwards updates `likedSongs` from the remote result: prepend when the
remote reports the song was added, filter-out by url when removed. The
`remoteOk` flag is whether the awaited call resolves; on rejection the
handler has no catch, so no local change happens. -/
def toggleLike (st : AppState) (table : List LikedRow) (song : Song)
    (remoteOk : Bool) : ToggleOutcome × AppState × List LikedRow :=
  match st.user with
  | none => (.authPrompt, st, table)
  | some u =>
    if u.emailConfirmed then
      if remoteOk then
        let res := toggleLikedSong u.id song table
        if res.1 then
          (.toggled true, { st with likedSongs := song :: st.likedSongs }, res.2)
        else
          (.toggled false,
           { st with likedSongs := st.likedSongs.filter (fun s => !(s.url == song.url)) },
           res.2)
      else (.thrown, st, table)
    else (.verifyAlert, st, table)

/-- Liked-state lookup used by the UI (`part_001` line 245): membership
in `likedSongs` decided by url equality. -/
def isLiked (likedSongs : List Song) (song : Song) : Bool :=
  likedSongs.any (fun s => s.url == song.url)

/-- Optimistic toggle as described by the specification sentence for
`toggleLike` (flip local membership first: prepend if adding, filter-out
by url if removing, returning the new membership). Stated only for
comparison with the embedded `toggleLike`; the code does not implement
this. -/
def optimisticToggleLike (likedSongs : List Song) (song : Song) :
    List Song × Bool :=
  if isLiked likedSongs song then
    (likedSongs.filter (fun s => !(s.url == song.url)), false)
  else
    (song :: likedSongs, true)

/-- Refinement of `toggleLikedSong` making the fate of the issued write
explicit. The delete and insert calls in `dbService.toggleLikedSong`
(`dbService.ts` lines 37-43) never read their response objects, and the
supabase query builder reports database and network failures in that
response rather than by rejecting, so a failed write is invisible to the
caller: the returned membership flag is computed solely from the
pre-write query, and only whether the table actually changed depends on
the write succeeding (`writeOk`). With `writeOk := true` this is exactly
`toggleLikedSong`. -/
def toggleLikedSongW (uid : String) (song : Song) (table : List LikedRow)
    (writeOk : Bool) : Bool × List LikedRow :=
  let res := toggleLikedSong uid song table
  (res.1, if writeOk then res.2 else table)

/-- Embedding of `toggleLike` (`part_001` lines 187-202) over the refined
`toggleLikedSongW`: identical to `toggleLike` except that the success of
the issued remote write is tracked. The handler updates `likedSongs` from
the returned flag alone, so the local update is the same whether or not
the write succeeded — the code contains no revert and surfaces no error
for a failed write. -/
def toggleLikeW (st : AppState) (table : List LikedRow) (song : Song)
    (remoteOk writeOk : Bool) : ToggleOutcome × AppState × List LikedRow :=
  match st.user with
  | none => (.authPrompt, st, table)
  | some u =>
    if u.emailConfirmed then
      if remoteOk then
        let res := toggleLikedSongW u.id song table writeOk
        if res.1 then
          (.toggled true, { st with likedSongs := song :: st.likedSongs }, res.2)
        else
          (.toggled false,
           { st with likedSongs := st.likedSongs.filter (fun s => !(s.url == song.url)) },
           res.2)
      else (.thrown, st, table)
    else (.verifyAlert, st, table)

/-- Observable outcome of `createNewPlaylist` (`part_001` lines 204-224). -/
inductive CreateOutcome
  | authPrompt
  | verifyAlert
  | cancelled
  | createFailed
  | ok
deriving DecidableEq, Repr

/-- Embedding of `createNewPlaylist` (`part_001` lines 204-224): session
checks first, then the `prompt` result (null or empty aborts), then the
remote insert; on success the playlist returned by persistence is
appended locally with an empty song list, and on a rejected insert the
catch shows an alert leaving state unchanged. -/
def createNewPlaylist (st : AppState) (nameInput : Option String)
    (remote : Option PlaylistRow) : CreateOutcome × AppState :=
  match st.user with
  | none => (.authPrompt, st)
  | some u =>
    if u.emailConfirmed then
      match nameInput with
      | none => (.cancelled, st)
      | some nm =>
        if nm = "" then (.cancelled, st)
        else
          match remote with
          | none => (.createFailed, st)
          | some row =>
            (.ok, { st with playlists := st.playlists ++ [⟨row.id, row.name, row.image, []⟩] })
    else (.verifyAlert, st)

/-- Observable outcome of the playlist-delete click handler. -/
inductive DeleteOutcome
  | cancelled
  | thrown
  | ok
deriving DecidableEq, Repr

/-- Embedding of the playlist-delete click handler (`part_001` lines
432-437) together with `dbService.deletePlaylist` (`dbService.ts` lines
75-78): after the confirm dialog, the remote row is deleted and then the
playlist is removed locally. Neither the handler nor the service consults
the session — the body never reads `st.user`. -/
def deletePlaylistClick (st : AppState) (table : List PlaylistRow) (pid : Nat)
    (confirmed remoteOk : Bool) : DeleteOutcome × AppState × List PlaylistRow :=
  if confirmed then
    if remoteOk then
      (.ok, { st with playlists := st.playlists.filter (fun p => !(p.id == pid)) },
       table.filter (fun r => !(r.id == pid)))
    else (.thrown, st, table)
  else (.cancelled, st, table)

/-- Fresh persistence-assigned id for an insert into `playlist_songs`. -/
def nextSongRowId (table : List PlaylistSongRow) : Nat :=
  (table.map PlaylistSongRow.id).foldr max 0 + 1

/-- Embedding of `dbService.addSongToPlaylist` (`dbService.ts` lines
80-85): inserts a row unconditionally; no session information is even a
parameter of the function. -/
def addSongToPlaylist (table : List PlaylistSongRow) (pid : Nat)
    (song : Song) : List PlaylistSongRow :=
  table ++ [⟨nextSongRowId table, pid, song⟩]

/-- C1 counterexample: in the Anonymous session state (user is none) the
playlist-delete flow neither fails nor raises an auth error — it returns
ok and deletes the remote playlist row, because no session check exists
on that path. -/
theorem deletePlaylist_noGuard_cex :
    deletePlaylistClick ⟨none, none, [], []⟩ [⟨1, "u1", "My Mix", "img"⟩] 1 true true =
      (DeleteOutcome.ok, ⟨none, none, [], []⟩, []) ∧
    ([] : List PlaylistRow) ≠ [⟨1, "u1", "My Mix", "img"⟩] := by
  constructor
  · rfl
  · decide

/-- C1 amended: `toggleLike` and `createNewPlaylist` check the session
first and fail without touching `likedSongs` or `playlists` — opening the
auth modal when anonymous and alerting for verification when unverified —
while the playlist-delete flow is completely independent of the session
(any two states sharing the same playlists produce identical outcome,
local playlists, and remote table), there being no guard on that path. -/
theorem mutationGuard_amended (st : AppState) (table : List LikedRow)
    (song : Song) (remoteOk : Bool) (nameInput : Option String)
    (remote : Option PlaylistRow) (ptable : List PlaylistRow) (pid : Nat)
    (confirmed remoteOk2 : Bool) :
    (st.user = none →
      toggleLike st table song remoteOk = (ToggleOutcome.authPrompt, st, table) ∧
      createNewPlaylist st nameInput remote = (CreateOutcome.authPrompt, st)) ∧
    (∀ u, st.user = some u → u.emailConfirmed = false →
      toggleLike st table song remoteOk = (ToggleOutcome.verifyAlert, st, table) ∧
      createNewPlaylist st nameInput remote = (CreateOutcome.verifyAlert, st)) ∧
    (∀ st2 : AppState, st2.playlists = st.playlists →
      (deletePlaylistClick st ptable pid confirmed remoteOk2).1 =
        (deletePlaylistClick st2 ptable pid confirmed remoteOk2).1 ∧
      (deletePlaylistClick st ptable pid confirmed remoteOk2).2.1.playlists =
        (deletePlaylistClick st2 ptable pid confirmed remoteOk2).2.1.playlists ∧
      (deletePlaylistClick st ptable pid confirmed remoteOk2).2.2 =
        (deletePlaylistClick st2 ptable pid confirmed remoteOk2).2.2) := by
  refine ⟨?_, ?_, ?_⟩
  · intro h
    exact ⟨by simp [toggleLike, h], by simp [createNewPlaylist, h]⟩
  · intro u hu hconf
    exact ⟨by simp [toggleLike, hu, hconf], by simp [createNewPlaylist, hu, hconf]⟩
  · intro st2 hpl
    by_cases hc : confirmed <;> by_cases hr : remoteOk2 <;>
      simp [deletePlaylistClick, hc, hr, hpl]

/-- Witness for C1 on the concrete anonymous state: both guarded
mutations fail with the auth prompt and leave the state untouched. -/
theorem mutationGuard_amended_witness :
    toggleLike ⟨none, none, [], []⟩ [] ⟨"t", "T", "A", none⟩ true =
      (ToggleOutcome.authPrompt, ⟨none, none, [], []⟩, []) ∧
    createNewPlaylist ⟨none, none, [], []⟩ (some "Mix") none =
      (CreateOutcome.authPrompt, ⟨none, none, [], []⟩) :=
  (mutationGuard_amended ⟨none, none, [], []⟩ [] ⟨"t", "T", "A", none⟩ true
    (some "Mix") none [] 1 true true).1 rfl

/-- C2 counterexample: the claimed behavior fails in both directions.
First, the local update is not a flip of local membership performed
before the remote write: with the song locally present but no matching
remote row, the code consults the remote state, inserts, and prepends —
duplicating the local entry where the claimed flip would have removed
it. Second, when the remote write itself fails nothing is reverted and
no error is surfaced: `dbService.toggleLikedSong` discards the delete
response, so the local filter-out is applied and kept — `likedSongs`
ends at [] instead of its pre-call value [T] — while the remote row
survives and the outcome is an ordinary completion. -/
theorem toggleLike_notOptimistic_cex :
    (toggleLike ⟨some ⟨"u1", none, true, none, none⟩, none,
        [⟨"t", "T", "A", none⟩], []⟩ [] ⟨"t", "T", "A", none⟩ true).2.1.likedSongs =
      [⟨"t", "T", "A", none⟩, ⟨"t", "T", "A", none⟩] ∧
    (optimisticToggleLike [⟨"t", "T", "A", none⟩] ⟨"t", "T", "A", none⟩).1 = [] ∧
    ([⟨"t", "T", "A", none⟩, ⟨"t", "T", "A", none⟩] : List Song) ≠ [] ∧
    toggleLikeW ⟨some ⟨"u1", none, true, none, none⟩, none,
        [⟨"t", "T", "A", none⟩], []⟩ [⟨1, "u1", ⟨"t", "T", "A", none⟩⟩]
        ⟨"t", "T", "A", none⟩ true false =
      (ToggleOutcome.toggled false,
       ⟨some ⟨"u1", none, true, none, none⟩, none, [], []⟩,
       [⟨1, "u1", ⟨"t", "T", "A", none⟩⟩]) ∧
    ([] : List Song) ≠ [⟨"t", "T", "A", none⟩] := by
  refine ⟨rfl, rfl, by decide, rfl, by decide⟩

/-- C2 amended: for a verified session `toggleLike` performs the remote
membership query and write first and only then updates `likedSongs` from
the remote result — prepend when no row matched (an insert was issued),
filter-out by url when exactly one row matched (a delete was issued) —
and the local update is identical whether or not the issued write
succeeds, because the write response is discarded: a failed write leaves
the remote table unchanged yet still flips the local list, with no
revert and no surfaced PersistenceError. A rejected promise (the handler
has no catch) returns the state and table exactly as they were, nothing
having been applied yet. With the write succeeding the refined embedding
coincides with `toggleLike`. -/
theorem toggleLike_remoteFirst (st : AppState) (u : AuthUser)
    (table : List LikedRow) (song : Song) (writeOk : Bool)
    (hu : st.user = some u) (hconf : u.emailConfirmed = true) :
    (∀ w : Bool, toggleLikeW st table song false w = (ToggleOutcome.thrown, st, table)) ∧
    (matchingRows u.id song.url table = [] →
      toggleLikeW st table song true writeOk =
        (ToggleOutcome.toggled true, { st with likedSongs := song :: st.likedSongs },
         if writeOk then table ++ [⟨nextId table, u.id, song⟩] else table)) ∧
    (∀ row, matchingRows u.id song.url table = [row] →
      toggleLikeW st table song true writeOk =
        (ToggleOutcome.toggled false,
         { st with likedSongs := st.likedSongs.filter (fun s => !(s.url == song.url)) },
         if writeOk then table.filter (fun r => !(r.id == row.id)) else table)) ∧
    (∀ r : Bool, toggleLikeW st table song r true = toggleLike st table song r) := by
  refine ⟨?_, ?_, ?_, ?_⟩
  · intro w
    simp [toggleLikeW, hu, hconf]
  · intro hmr
    simp [toggleLikeW, toggleLikedSongW, hu, hconf, toggleLikedSong, hmr]
  · intro row hmr
    simp [toggleLikeW, toggleLikedSongW, hu, hconf, toggleLikedSong, hmr]
  · intro r
    cases r <;> simp [toggleLikeW, toggleLikedSongW, toggleLike, hu, hconf]

/-- Witness for C2: a verified user likes a song whose remote insert is
issued but fails — the local prepend is still applied and kept while the
remote table stays empty. -/
theorem toggleLike_remoteFirst_witness :
    toggleLikeW ⟨some ⟨"u1", none, true, none, none⟩, none, [], []⟩ []
        ⟨"t", "T", "A", none⟩ true false =
      (ToggleOutcome.toggled true,
       ⟨some ⟨"u1", none, true, none, none⟩, none, [⟨"t", "T", "A", none⟩], []⟩,
       []) :=
  (toggleLike_remoteFirst ⟨some ⟨"u1", none, true, none, none⟩, none, [], []⟩
    ⟨"u1", none, true, none, none⟩ [] ⟨"t", "T", "A", none⟩ false rfl rfl).2.1 rfl

/-- C4 counterexample: starting from likedSongs = [A, T] with T liked
remotely, toggling T twice (both remote writes succeeding) yields
[T, A] — the membership boolean is restored but the original ordering is
not, because the re-like prepends T at the front. -/
theorem toggleLike_roundTrip_order_cex :
    (toggleLike
        (toggleLike ⟨some ⟨"u1", none, true, none, none⟩, none,
            [⟨"a", "SA", "AA", none⟩, ⟨"t", "ST", "AT", none⟩], []⟩
          [⟨1, "u1", ⟨"t", "ST", "AT", none⟩⟩] ⟨"t", "ST", "AT", none⟩ true).2.1
        (toggleLike ⟨some ⟨"u1", none, true, none, none⟩, none,
            [⟨"a", "SA", "AA", none⟩, ⟨"t", "ST", "AT", none⟩], []⟩
          [⟨1, "u1", ⟨"t", "ST", "AT", none⟩⟩] ⟨"t", "ST", "AT", none⟩ true).2.2
        ⟨"t", "ST", "AT", none⟩ true).2.1.likedSongs =
      [⟨"t", "ST", "AT", none⟩, ⟨"a", "SA", "AA", none⟩] ∧
    ([⟨"t", "ST", "AT", none⟩, ⟨"a", "SA", "AA", none⟩] : List Song) ≠
      [⟨"a", "SA", "AA", none⟩, ⟨"t", "ST", "AT", none⟩] := by
  refine ⟨rfl, by decide⟩

/-- Restriction of the membership query to a delete-filtered table:
membership filtering commutes with the id filter. -/
theorem matchingRows_filter_id (uid url : String) (table : List LikedRow) (n : Nat) :
    matchingRows uid url (table.filter (fun r => !(r.id == n))) =
      (matchingRows uid url table).filter (fun r => !(r.id == n)) := by
  unfold matchingRows
  rw [List.filter_filter, List.filter_filter]
  apply List.filter_congr
  intro a _
  exact Bool.and_comm _ _

/-- C4 amended: for a verified session with both remote writes
succeeding, toggling the same track twice restores the membership
boolean; the original list is restored exactly when the track was not
initially liked (locally by url and remotely by row), while when exactly
one remote row matches and the track is locally liked the final list is
the track prepended to the url-filtered remainder — membership is
restored but the original ordering is not in general. -/
theorem toggleLike_roundTrip (st : AppState) (u : AuthUser)
    (table : List LikedRow) (T : Song)
    (hu : st.user = some u) (hconf : u.emailConfirmed = true) :
    ((∀ s ∈ st.likedSongs, s.url ≠ T.url) → matchingRows u.id T.url table = [] →
      (toggleLike (toggleLike st table T true).2.1
          (toggleLike st table T true).2.2 T true).2.1.likedSongs = st.likedSongs ∧
      isLiked (toggleLike (toggleLike st table T true).2.1
          (toggleLike st table T true).2.2 T true).2.1.likedSongs T =
        isLiked st.likedSongs T) ∧
    (∀ row, matchingRows u.id T.url table = [row] → isLiked st.likedSongs T = true →
      (toggleLike (toggleLike st table T true).2.1
          (toggleLike st table T true).2.2 T true).2.1.likedSongs =
        T :: st.likedSongs.filter (fun s => !(s.url == T.url)) ∧
      isLiked (toggleLike (toggleLike st table T true).2.1
          (toggleLike st table T true).2.2 T true).2.1.likedSongs T =
        isLiked st.likedSongs T) := by
  constructor
  · intro hloc hmr
    have hstep1 : toggleLike st table T true =
        (ToggleOutcome.toggled true, { st with likedSongs := T :: st.likedSongs },
         table ++ [⟨nextId table, u.id, T⟩]) := by
      simp [toggleLike, hu, hconf, toggleLikedSong, hmr]
    have hmr2 : matchingRows u.id T.url (table ++ [⟨nextId table, u.id, T⟩]) =
        [⟨nextId table, u.id, T⟩] := by
      unfold matchingRows at hmr ⊢
      rw [List.filter_append, hmr]
      simp
    have hfilter : (T :: st.likedSongs).filter (fun s => !(s.url == T.url)) =
        st.likedSongs := by
      rw [List.filter_cons]
      simp only [beq_self_eq_true, Bool.not_true, Bool.false_eq_true, if_false]
      exact List.filter_eq_self.mpr (fun s hs => by simpa using hloc s hs)
    have hlist : (toggleLike (toggleLike st table T true).2.1
        (toggleLike st table T true).2.2 T true).2.1.likedSongs = st.likedSongs := by
      rw [hstep1]
      simp [toggleLike, hu, hconf, toggleLikedSong, hmr2, hfilter]
    exact ⟨hlist, by rw [hlist]⟩
  · intro row hmr hliked
    have hstep1 : toggleLike st table T true =
        (ToggleOutcome.toggled false,
         { st with likedSongs := st.likedSongs.filter (fun s => !(s.url == T.url)) },
         table.filter (fun r => !(r.id == row.id))) := by
      simp [toggleLike, hu, hconf, toggleLikedSong, hmr]
    have hmr2 : matchingRows u.id T.url (table.filter (fun r => !(r.id == row.id))) = [] := by
      rw [matchingRows_filter_id, hmr]
      simp
    have hlist : (toggleLike (toggleLike st table T true).2.1
        (toggleLike st table T true).2.2 T true).2.1.likedSongs =
        T :: st.likedSongs.filter (fun s => !(s.url == T.url)) := by
      rw [hstep1]
      simp [toggleLike, hu, hconf, toggleLikedSong, hmr2]
    refine ⟨hlist, ?_⟩
    rw [hlist, hliked]
    simp [isLiked]

/-- Witness for C4 with a track not initially liked: the double toggle
restores the one-element list exactly. -/
theorem toggleLike_roundTrip_witness :
    (toggleLike
        (toggleLike ⟨some ⟨"u1", none, true, none, none⟩, none,
            [⟨"a", "SA", "AA", none⟩], []⟩ [] ⟨"t", "ST", "AT", none⟩ true).2.1
        (toggleLike ⟨some ⟨"u1", none, true, none, none⟩, none,
            [⟨"a", "SA", "AA", none⟩], []⟩ [] ⟨"t", "ST", "AT", none⟩ true).2.2
        ⟨"t", "ST", "AT", none⟩ true).2.1.likedSongs =
      [⟨"a", "SA", "AA", none⟩] ∧
    isLiked (toggleLike
        (toggleLike ⟨some ⟨"u1", none, true, none, none⟩, none,
            [⟨"a", "SA", "AA", none⟩], []⟩ [] ⟨"t", "ST", "AT", none⟩ true).2.1
        (toggleLike ⟨some ⟨"u1", none, true, none, none⟩, none,
            [⟨"a", "SA", "AA", none⟩], []⟩ [] ⟨"t", "ST", "AT", none⟩ true).2.2
        ⟨"t", "ST", "AT", none⟩ true).2.1.likedSongs ⟨"t", "ST", "AT", none⟩ =
      isLiked [⟨"a", "SA", "AA", none⟩] ⟨"t", "ST", "AT", none⟩ :=
  (toggleLike_roundTrip ⟨some ⟨"u1", none, true, none, none⟩, none,
      [⟨"a", "SA", "AA", none⟩], []⟩ ⟨"u1", none, true, none, none⟩ []
      ⟨"t", "ST", "AT", none⟩ rfl rfl).1 (by decide) rfl

/-! ## Library sync (`part_001` lines 74-103, `fetchData`) -/

/-- Await points of `fetchData` at which the surrounding try block can
catch a rejection: the profile fetch/create, the liked-songs fetch, or
the playlists fetch. -/
inductive SyncStep
  | profileStep
  | likedStep
  | playlistsStep
deriving DecidableEq, Repr

/-- Remote data consumed by a `fetchData` run, plus the first await point
(if any) whose promise rejects. -/
structure SyncRemote where
  existingProfile : Option Profile
  liked : List Song
  playlists : List Playlist
  failAt : Option SyncStep
deriving DecidableEq, Repr

/-- Profile defaulting performed by `fetchData` for users without a
profile row (`part_001` lines 80-90): username from the email local part
with "User" as the falsy fallback, full name and avatar from the provider
metadata with falsy fallbacks, empty phone. -/
def defaultProfile (u : AuthUser) : Profile :=
  { id := u.id
    username :=
      match u.email with
      | some e =>
        match (e.splitOn "@").head? with
        | some h => if h = "" then "User" else h
        | none => "User"
      | none => "User"
    full_name :=
      match u.metaFullName with
      | some f => f
      | none => ""
    avatar_url :=
      match u.metaAvatarUrl with
      | some a => if a = "" then none else some a
      | none => none
    phone := "" }

/-- Profile that `fetchData` installs: the fetched row if present,
otherwise the freshly created default. -/
def resolvedProfile (u : AuthUser) (r : SyncRemote) : Profile :=
  match r.existingProfile with
  | some p => p
  | none => defaultProfile u

/-- Embedding of `fetchData` (`part_001` lines 74-103): three separate
state updates — `setProfile`, `setLikedSongs`, `setPlaylists` — applied
in sequence with an await before each; a rejection at any await is caught
by the surrounding try/catch and logged, leaving whatever updates already
ran in place. -/
def fetchData (st : AppState) (u : AuthUser) (r : SyncRemote) : AppState :=
  if r.failAt = some SyncStep.profileStep then st
  else
    let st1 := { st with profile := some (resolvedProfile u r) }
    if r.failAt = some SyncStep.likedStep then st1
    else
      let st2 := { st1 with likedSongs := r.liked }
      if r.failAt = some SyncStep.playlistsStep then st2
      else { st2 with playlists := r.playlists }

/-- C7 counterexample: with the liked-songs fetch rejecting after the
profile step completed, `fetchData` settles in a state combining the new
profile with the stale non-empty liked list — precisely the partial state
the claim says is never visible to readers. -/
theorem fetchData_partial_cex :
    fetchData
        ⟨some ⟨"u1", some "a@b.com", true, none, none⟩,
         some ⟨"u1", "old", "", none, ""⟩, [⟨"uo", "Old", "AO", none⟩], []⟩
        ⟨"u1", some "a@b.com", true, none, none⟩
        ⟨some ⟨"u1", "new", "", none, ""⟩, [⟨"un", "New", "AN", none⟩], [],
         some SyncStep.likedStep⟩ =
      ⟨some ⟨"u1", some "a@b.com", true, none, none⟩,
       some ⟨"u1", "new", "", none, ""⟩, [⟨"uo", "Old", "AO", none⟩], []⟩ ∧
    (⟨"u1", "new", "", none, ""⟩ : Profile) ≠ ⟨"u1", "old", "", none, ""⟩ ∧
    ([⟨"uo", "Old", "AO", none⟩] : List Song) ≠ [⟨"un", "New", "AN", none⟩] := by
  refine ⟨rfl, by decide, by decide⟩

/-- C7 amended: `fetchData` replaces the snapshot as three sequential
updates, not atomically — a rejection before the profile step leaves the
state untouched, a rejection at the liked-songs step leaves the new
profile installed alongside the old liked list and playlists, a rejection
at the playlists step additionally installs the new liked list, and only
a fully successful run replaces all three parts. -/
theorem fetchData_sequential (st : AppState) (u : AuthUser) (r : SyncRemote) :
    (r.failAt = some SyncStep.profileStep → fetchData st u r = st) ∧
    (r.failAt = some SyncStep.likedStep →
      fetchData st u r = { st with profile := some (resolvedProfile u r) }) ∧
    (r.failAt = some SyncStep.playlistsStep →
      fetchData st u r =
        { st with profile := some (resolvedProfile u r), likedSongs := r.liked }) ∧
    (r.failAt = none →
      fetchData st u r =
        { st with
            profile := some (resolvedProfile u r)
            likedSongs := r.liked
            playlists := r.playlists }) := by
  refine ⟨?_, ?_, ?_, ?_⟩ <;> intro h <;> simp [fetchData, h]

/-- Witness for C7 at the liked-step rejection on a concrete state. -/
theorem fetchData_sequential_witness :
    fetchData
        ⟨some ⟨"u1", some "a@b.com", true, none, none⟩,
         some ⟨"u1", "old", "", none, ""⟩, [⟨"uo", "Old", "AO", none⟩], []⟩
        ⟨"u1", some "a@b.com", true, none, none⟩
        ⟨some ⟨"u1", "new", "", none, ""⟩, [⟨"un", "New", "AN", none⟩], [],
         some SyncStep.likedStep⟩ =
      { user := some ⟨"u1", some "a@b.com", true, none, none⟩,
        profile := some (resolvedProfile ⟨"u1", some "a@b.com", true, none, none⟩
          ⟨some ⟨"u1", "new", "", none, ""⟩, [⟨"un", "New", "AN", none⟩], [],
           some SyncStep.likedStep⟩),
        likedSongs := [⟨"uo", "Old", "AO", none⟩], playlists := [] } :=
  (fetchData_sequential
      ⟨some ⟨"u1", some "a@b.com", true, none, none⟩,
       some ⟨"u1", "old", "", none, ""⟩, [⟨"uo", "Old", "AO", none⟩], []⟩
      ⟨"u1", some "a@b.com", true, none, none⟩
      ⟨some ⟨"u1", "new", "", none, ""⟩, [⟨"un", "New", "AN", none⟩], [],
       some SyncStep.likedStep⟩).2.1 rfl
